import Mathlib

/-!
Verification of the integrity-check core of the audio-tool repository.

The definitions below are a shallow embedding of
`modules/integrity_check/determine_action.py`, `process_file.py`,
`check_file.py`, `check_integrity.py`, `db_cleanup.py` and `lock_utils.py`.

Modelling conventions:
- a file's current modification time is an `Int` (the spec calls it an
  opaque comparable clock value); the content fingerprint returned by
  `calculate_file_hash` is a `String` supplied per path by the `World`
  (the hash of the file's current bytes);
- SQLite column values are `SqlVal` (TEXT or REAL), so that comparisons
  between values of different storage classes are false, exactly as in
  SQLite and as in Python `==` between `str` and `float`;
- the two outcome partitions `passed_files` / `failed_files` are total
  functions from path to optional row;
- external subprocess outcomes (ffmpeg run, ffprobe) are oracles in the
  `World`; code that raises in Python is embedded with `Except`.
-/

/-- A SQLite value: TEXT (`s`) or REAL (`r`, integer-valued in this model).
Cross-class equality is false, both in SQLite comparisons and in Python. -/
inductive SqlVal where
  | s (v : String)
  | r (v : Int)
deriving DecidableEq, Repr

/-- Result of `os.path.getmtime` plus `calculate_file_hash` for a file that
exists on disk. -/
structure FileStat where
  mtime : Int
  hash : String
deriving DecidableEq, Repr

/-- One row of `passed_files` / `failed_files` (key `file_path` is the map
key; remaining columns: `file_hash, mtime, status, last_checked, codec`). -/
structure FileRecord where
  file_hash : String
  mtime : SqlVal
  status : String
  last_checked : String
  codec : String
deriving DecidableEq, Repr

/-- An outcome partition: map from `file_path` to its row, if any. -/
def Table := String → Option FileRecord

/-- The fingerprint store: the two outcome partitions of
`integrity_check.db`. -/
structure DB where
  passed : Table
  failed : Table

/-- Outcome of the external `ffmpeg -v error -i file -f null -` run:
it completed with the given stderr text, it hit the 30s timeout
(`subprocess.TimeoutExpired`), or some other exception was raised. -/
inductive FfmpegRun where
  | completed (errOut : String)
  | timedOut
  | exn (msg : String)
deriving DecidableEq, Repr

/-- The environment: the filesystem (stat + content fingerprint per path,
`none` when the file does not exist) and the two external subprocess
oracles (`ffmpeg` decode run, `ffprobe` codec probe; for the probe `none`
means the call raised). -/
structure World where
  fs : String → Option FileStat
  ffmpeg : String → FfmpegRun
  probe : String → Option String

/-- The `update_info` tuple built by `process_file` for a RUN_FFMPEG
result: `(file_path, current_hash, current_mtime, status, codec)`. -/
structure UpdateInfo where
  path : String
  file_hash : String
  mtime : Int
  status : String
  codec : String
deriving DecidableEq, Repr

/-- The tuple returned by `determine_action`, as a tagged variant carrying
exactly the non-`None` tuple components of each case. -/
inductive DAct where
  | FILE_NOT_FOUND
  | USE_CACHED (storedStatus : String) (currentMtime : Int)
  | UPDATE_MTIME (storedStatus : String) (currentHash : String) (currentMtime : Int)
  | RUN_FFMPEG (currentHash : String) (currentMtime : Int)
deriving DecidableEq, Repr

/-- Whether a decision is the RUN_FFMPEG action. -/
def DAct.isRun : DAct → Bool
  | .RUN_FFMPEG _ _ => true
  | _ => false

/-- Whether a decision is the USE_CACHED action. -/
def DAct.isUseCached : DAct → Bool
  | .USE_CACHED _ _ => true
  | _ => false

/-- The tuple returned by `process_file`. The first three cases are the
5-element tuples of the source; `errorTuple` is the 4-element tuple
`('ERROR', "Unknown action", file_path, None)` returned on the fallthrough
branch (reached for FILE_NOT_FOUND). -/
inductive PRes where
  | useCached (status message path : String)
  | updateMtime (status message path : String) (mtime : Int)
  | runFfmpeg (status message path : String) (ui : UpdateInfo)
  | errorTuple (message path : String)
deriving DecidableEq, Repr

/-- The codec lookup table of `normalize_codec` in `check_file.py`:
raw name to `(normalized name, lossy / lossless)`. -/
def codecMap : List (String × (String × String)) :=
  [("mpeg layer 3", ("mp3", "lossy")),
   ("mpeg-1 layer 3", ("mp3", "lossy")),
   ("mpeg-2 layer 3", ("mp3", "lossy")),
   ("mp3", ("mp3", "lossy")),
   ("mp3float", ("mp3", "lossy")),
   ("aac", ("aac", "lossy")),
   ("aac-lc", ("aac", "lossy")),
   ("aac-ld", ("aac", "lossy")),
   ("aac-he", ("aac", "lossy")),
   ("aac-hev2", ("aac", "lossy")),
   ("aac_latm", ("aac", "lossy")),
   ("vorbis", ("ogg", "lossy")),
   ("libvorbis", ("ogg", "lossy")),
   ("ogg", ("ogg", "lossy")),
   ("opus", ("opus", "lossy")),
   ("libopus", ("opus", "lossy")),
   ("flac", ("flac", "lossless")),
   ("libflac", ("flac", "lossless")),
   ("alac", ("alac", "lossless")),
   ("apl", ("alac", "lossless")),
   ("wavpack", ("wv", "lossless")),
   ("wv", ("wv", "lossless")),
   ("wav", ("wav", "lossless")),
   ("pcm", ("pcm", "lossless")),
   ("pcm_s16le", ("pcm", "lossless")),
   ("pcm_s24le", ("pcm", "lossless")),
   ("pcm_s32le", ("pcm", "lossless")),
   ("pcm_f32le", ("pcm", "lossless")),
   ("ape", ("ape", "lossless")),
   ("wma", ("wma", "lossy")),
   ("wmav1", ("wma", "lossy")),
   ("wmav2", ("wma", "lossy")),
   ("ac3", ("ac3", "lossy")),
   ("eac3", ("eac3", "lossy")),
   ("dts", ("dts", "lossy")),
   ("truehd", ("truehd", "lossless"))]

/-- `normalize_codec` from `check_file.py`: lower-case and strip the raw
name, look it up, defaulting to `(raw, "unknown")`. -/
def normalize_codec (codec : String) : String × String :=
  let c := codec.toLower.trim
  (List.lookup c codecMap).getD (c, "unknown")

/-- `get_codec` from `check_file.py`: probe the codec with ffprobe; any
exception yields "unknown"; empty stdout yields "unknown"; otherwise the
stripped stdout is normalized. -/
def get_codec (w : World) (fp : String) : String :=
  match w.probe fp with
  | none => "unknown"
  | some out =>
    let codec := if out = "" then "unknown" else out.trim
    (normalize_codec codec).1

/-- `check_single_file` from `check_file.py`: run ffmpeg with a 30s
timeout; empty stderr is PASSED with empty message, non-empty stderr is
FAILED with the stripped stderr as message; a timeout is FAILED with the
fixed message; any other exception is FAILED with the exception text.
Returns `(status, message, file_path, codec)`. -/
def check_single_file (w : World) (fp : String) : String × String × String × String :=
  match w.ffmpeg fp with
  | FfmpegRun.completed errOut =>
    let codec := get_codec w fp
    if errOut = "" then ("PASSED", "", fp, codec)
    else ("FAILED", errOut.trim, fp, codec)
  | FfmpegRun.timedOut => ("FAILED", "FFmpeg timed out", fp, "unknown")
  | FfmpegRun.exn m => ("FAILED", m, fp, "unknown")

/-- The body of the lookup loop of `determine_action`, applied to the row
found for the path (the second component counts `calculate_file_hash`
invocations). The stored mtime is compared with the current float mtime
by Python `==`, which is false across storage classes. -/
def decideFromRecord (fr : FileRecord) (st : FileStat) : DAct × Nat :=
  if fr.mtime = SqlVal.r st.mtime then (DAct.USE_CACHED fr.status st.mtime, 0)
  else if fr.file_hash = st.hash then (DAct.UPDATE_MTIME fr.status st.hash st.mtime, 1)
  else (DAct.RUN_FFMPEG st.hash st.mtime, 1)

/-- `determine_action` from `determine_action.py`. The second component
counts `calculate_file_hash` invocations. The loop consults
`passed_files` first, then `failed_files`. -/
def determine_action (w : World) (db : DB) (fp : String) (forceRecheck : Bool) : DAct × Nat :=
  if forceRecheck then
    match w.fs fp with
    | none => (DAct.FILE_NOT_FOUND, 0)
    | some st => (DAct.RUN_FFMPEG st.hash st.mtime, 1)
  else
    match w.fs fp with
    | none => (DAct.FILE_NOT_FOUND, 0)
    | some st =>
      match db.passed fp with
      | some fr => decideFromRecord fr st
      | none =>
        match db.failed fp with
        | some fr => decideFromRecord fr st
        | none => (DAct.RUN_FFMPEG st.hash st.mtime, 1)

/-- `process_file` from `process_file.py`. The second component counts
invocations of the verifier `check_single_file`. -/
def process_file (w : World) (db : DB) (fp : String) (forceRecheck : Bool) : PRes × Nat :=
  match determine_action w db fp forceRecheck with
  | (DAct.USE_CACHED s _, _) => (PRes.useCached s "Cached result" fp, 0)
  | (DAct.UPDATE_MTIME s _ m, _) =>
    (PRes.updateMtime s "Cached result (hash matches)" fp m, 0)
  | (DAct.RUN_FFMPEG h m, _) =>
    let c := check_single_file w fp
    (PRes.runFfmpeg c.1 c.2.1 fp ⟨fp, h, m, c.1, c.2.2.2⟩, 1)
  | (DAct.FILE_NOT_FOUND, _) => (PRes.errorTuple "Unknown action" fp, 0)

/-- `INSERT OR REPLACE` of a row keyed by path. -/
def insertRec (t : Table) (p : String) (fr : FileRecord) : Table :=
  fun q => if q = p then some fr else t q

/-- `DELETE FROM table WHERE file_path = ?`. -/
def deleteRec (t : Table) (p : String) : Table :=
  fun q => if q = p then none else t q

/-- `UPDATE table SET mtime = ? WHERE file_path = ?` with parameters bound
in the correct order `(mtime, path)`, as in the verbose path of
`check_integrity.py` (line 74). Only an existing row is changed. -/
def updMtime (t : Table) (p : String) (m : Int) : Table :=
  fun q => if q = p then (t q).map (fun fr => { fr with mtime := SqlVal.r m }) else t q

/-- The batched `executemany("UPDATE ... SET mtime = ? WHERE file_path = ?",
pairs)` of the non-verbose path of `check_integrity.py` (lines 139, 143,
175, 178). The collected pairs are `(file_path, current_mtime)`, so the
first placeholder (the SET value) is bound to the TEXT path and the second
(the WHERE value) to the REAL mtime. A TEXT `file_path` key never equals a
REAL bind, so the WHERE clause matches no row and the update is a no-op;
the SET branch is kept for fidelity but is unreachable. -/
def batchUpdMtime (t : Table) (pairs : List (String × Int)) : Table :=
  pairs.foldl
    (fun acc pm => fun q =>
      if SqlVal.s q = SqlVal.r pm.2 then
        (acc q).map (fun fr => { fr with mtime := SqlVal.s pm.1 })
      else acc q)
    t

/-- The row inserted for a RUN_FFMPEG result:
`(file_path, file_hash, mtime, status, last_checked := now, codec)`. -/
def mkRecord (ui : UpdateInfo) (now : String) : FileRecord :=
  ⟨ui.file_hash, SqlVal.r ui.mtime, ui.status, now, ui.codec⟩

/-- One iteration of the verbose loop of `check_integrity.py`
(lines 58-98): run `process_file`, then commit immediately under the lock.
The 4-element `errorTuple` cannot be unpacked into the five names of
line 61, which raises `ValueError` and aborts the run. -/
def verboseStep (w : World) (db : DB) (fp : String) (forceRecheck : Bool) (now : String) :
    Except String (DB × Nat) :=
  match process_file w db fp forceRecheck with
  | (PRes.errorTuple _ _, _) =>
    Except.error "ValueError: not enough values to unpack (expected 5, got 4)"
  | (PRes.useCached _ _ _, n) => Except.ok (db, n)
  | (PRes.updateMtime s _ p mt, n) =>
    if s = "PASSED" then Except.ok ({ db with passed := updMtime db.passed p mt }, n)
    else Except.ok ({ db with failed := updMtime db.failed p mt }, n)
  | (PRes.runFfmpeg _ _ _ ui, n) =>
    if ui.status = "PASSED" then
      Except.ok (⟨insertRec db.passed ui.path (mkRecord ui now), deleteRec db.failed ui.path⟩, n)
    else
      Except.ok (⟨deleteRec db.passed ui.path, insertRec db.failed ui.path (mkRecord ui now)⟩, n)

/-- The batch flush of the non-verbose path of `check_integrity.py`
(lines 134-167 and 169-199): apply the (parameter-swapped, hence no-op)
mtime updates, then handle pending RUN results. The loops
`for file_path, _, _, _ in db_updates_passed` (lines 147, 156, 181, 189)
unpack the 5-element `update_info` tuples into four names, raising
`ValueError`; `conn.commit()` is then never reached, so nothing is
persisted and the exception propagates. -/
def flush_batch (db : DB) (now : String) (mtP mtF : List (String × Int))
    (upP upF : List UpdateInfo) : Except String DB :=
  let p1 := batchUpdMtime db.passed mtP
  let f1 := batchUpdMtime db.failed mtF
  if upP.isEmpty then
    if upF.isEmpty then Except.ok ⟨p1, f1⟩
    else Except.error "ValueError: too many values to unpack (expected 4)"
  else Except.error "ValueError: too many values to unpack (expected 4)"

/-- One file processed through the non-verbose path of
`check_integrity.py` (lines 107-199): collect the result into the pending
lists (line 112 unpacks five values, so the 4-element `errorTuple` raises
`ValueError`), then run the final flush (skipped when all lists are
empty, line 169). `now` is the commit timestamp. -/
def batched_round (w : World) (db : DB) (fp : String) (now : String) : Except String DB :=
  match process_file w db fp false with
  | (PRes.errorTuple _ _, _) =>
    Except.error "ValueError: not enough values to unpack (expected 5, got 4)"
  | (PRes.useCached _ _ _, _) => Except.ok db
  | (PRes.updateMtime s _ _ mt, _) =>
    if s = "PASSED" then flush_batch db now [(fp, mt)] [] [] []
    else flush_batch db now [] [(fp, mt)] [] []
  | (PRes.runFfmpeg s _ _ ui, _) =>
    if s = "PASSED" then flush_batch db now [] [] [ui] []
    else flush_batch db now [] [] [] [ui]

/-- `cleanup_database` from `db_cleanup.py`: for each partition, delete
every row whose path no longer exists on disk; rows for existing files
are untouched. -/
def cleanup_database (w : World) (db : DB) : DB :=
  ⟨fun p =>
    match db.passed p with
    | some fr => if (w.fs p).isSome then some fr else none
    | none => none,
   fun p =>
    match db.failed p with
    | some fr => if (w.fs p).isSome then some fr else none
    | none => none⟩

/-- The record the lookup loop of `determine_action` finds for a path:
the `passed_files` row if present, otherwise the `failed_files` row. -/
def recordOf (db : DB) (fp : String) : Option FileRecord :=
  match db.passed fp with
  | some fr => some fr
  | none => db.failed fp

/-- The mutual-exclusivity invariant: no path has rows in both outcome
partitions. -/
def exclusive (db : DB) : Prop :=
  ∀ p, db.passed p = none ∨ db.failed p = none

/-- Lock events of the mutual-exclusion coordinator (`fcntl.flock`). -/
inductive LockEv where
  | acquire
  | release
deriving DecidableEq, Repr

/-- A miniature imperative language with exceptions, to give semantics to
the `acquire; try: body finally: release` shape shared by
`determine_action`, the commits of `check_integrity` and
`cleanup_database`. `step` is a lock-free action that succeeds (a sqlite
call), `raise` is a lock-free action that raises. -/
inductive Prog where
  | lockAct (e : LockEv)
  | step
  | raise
  | seq (p q : Prog)
  | tryFinally (body fin : Prog)

/-- Python semantics: `seq` stops at the first exception; `tryFinally`
always runs the finalizer and completes normally only if both body and
finalizer do (an exception in the body is re-raised after the finalizer).
Returns the emitted lock events and whether execution completed
normally. -/
def runProg : Prog → List LockEv × Bool
  | Prog.lockAct e => ([e], true)
  | Prog.step => ([], true)
  | Prog.raise => ([], false)
  | Prog.seq p q =>
    let rp := runProg p
    if rp.2 then
      let rq := runProg q
      (rp.1 ++ rq.1, rq.2)
    else rp
  | Prog.tryFinally b f =>
    let rb := runProg b
    let rf := runProg f
    (rb.1 ++ rf.1, rb.2 && rf.2)

/-- A program that performs no lock operations of its own. -/
def noLock : Prog → Bool
  | Prog.lockAct _ => false
  | Prog.step => true
  | Prog.raise => true
  | Prog.seq p q => noLock p && noLock q
  | Prog.tryFinally b f => noLock b && noLock f

/-- The shape `lock_fd = acquire_lock(LOCK_FILE); try: body
finally: release_lock(lock_fd)` used at every lock site. -/
def lockedRegion (body : Prog) : Prog :=
  Prog.seq (Prog.lockAct LockEv.acquire)
    (Prog.tryFinally body (Prog.lockAct LockEv.release))

/-- The locked region of `determine_action` (lines 22-46). -/
def determine_action_locked (body : Prog) : Prog := lockedRegion body

/-- The locked region of each commit in `check_integrity` (lines 69-78,
80-98, 134-167, 170-199). -/
def commit_locked (body : Prog) : Prog := lockedRegion body

/-- The locked region of `cleanup_database` (lines 8-20). -/
def cleanup_locked (body : Prog) : Prog := lockedRegion body

/-- The empty store. -/
def dbEmpty : DB := ⟨fun _ => none, fun _ => none⟩

/-- A file with mtime 2 and fingerprint "h". -/
def st1 : FileStat := ⟨2, "h"⟩

/-- A world where no file exists. -/
def w0 : World := ⟨fun _ => none, fun _ => FfmpegRun.completed "", fun _ => none⟩

/-- A world where only "a.flac" exists, with stat `st1`; ffmpeg decodes it
cleanly and the codec probe raises. -/
def w1 : World :=
  ⟨fun p => if p = "a.flac" then some st1 else none,
   fun _ => FfmpegRun.completed "",
   fun _ => none⟩

/-- A world whose ffmpeg run always times out. -/
def wT : World := ⟨fun _ => none, fun _ => FfmpegRun.timedOut, fun _ => none⟩

/-- A passed row for "a.flac" whose mtime matches `st1`. -/
def rec1 : FileRecord := ⟨"h", SqlVal.r 2, "PASSED", "t0", "flac"⟩

/-- A failed row for "a.flac" with a different mtime and fingerprint. -/
def recF : FileRecord := ⟨"hF", SqlVal.r 9, "FAILED", "t0", "flac"⟩

/-- A passed row for "a.flac" with stale mtime 1 but the current
fingerprint "h": the REFRESH situation. -/
def rec5 : FileRecord := ⟨"h", SqlVal.r 1, "PASSED", "t0", "flac"⟩

/-- A failed row for "a.flac" with stale mtime and stale fingerprint:
the outcome-flip situation once the file decodes cleanly. -/
def recFail : FileRecord := ⟨"h0", SqlVal.r 1, "FAILED", "t0", "flac"⟩

/-- Store holding only `rec1` for "a.flac" in the passed partition. -/
def dbP : DB := ⟨fun p => if p = "a.flac" then some rec1 else none, fun _ => none⟩

/-- Store violating exclusivity: "a.flac" in both partitions. -/
def dbBoth : DB :=
  ⟨fun p => if p = "a.flac" then some rec1 else none,
   fun p => if p = "a.flac" then some recF else none⟩

/-- Store holding only the stale-mtime row `rec5` for "a.flac". -/
def db5 : DB := ⟨fun p => if p = "a.flac" then some rec5 else none, fun _ => none⟩

/-- The store produced by the batch flush of the single refresh pair
("a.flac", 2) from `db5`. -/
def db5b : DB :=
  ⟨batchUpdMtime db5.passed [("a.flac", 2)], batchUpdMtime db5.failed []⟩

/-- Store holding only the stale failed row `recFail` for "a.flac". -/
def dbw : DB := ⟨fun _ => none, fun p => if p = "a.flac" then some recFail else none⟩

/-- The store produced by the verbose commit of the outcome-flipping RUN
result for "a.flac" from `dbw`. -/
def dbw' : DB :=
  ⟨insertRec dbw.passed "a.flac" (mkRecord ⟨"a.flac", "h", 2, "PASSED", "unknown"⟩ "t1"),
   deleteRec dbw.failed "a.flac"⟩

/-- The parameter-swapped batched mtime UPDATE changes no row: the WHERE
value is a REAL bind compared against a TEXT key. -/
theorem batchUpdMtime_pointwise (t : Table) (pairs : List (String × Int)) (q : String) :
    batchUpdMtime t pairs q = t q := by
  induction pairs generalizing t with
  | nil => rfl
  | cons pm rest ih =>
    simp only [batchUpdMtime, List.foldl_cons] at ih ⊢
    rw [ih]
    exact if_neg (fun h => SqlVal.noConfusion h)

/-- A lock-free program emits no lock events. -/
theorem noLock_no_events (b : Prog) (hb : noLock b = true) : (runProg b).1 = [] := by
  induction b with
  | lockAct e => simp [noLock] at hb
  | step => rfl
  | raise => rfl
  | seq p q ihp ihq =>
    simp only [noLock, Bool.and_eq_true] at hb
    have hp := ihp hb.1
    have hq := ihq hb.2
    rcases hc : (runProg p).2 <;> simp [runProg, hc, hp, hq]
  | tryFinally b f ihb ihf =>
    simp only [noLock, Bool.and_eq_true] at hb
    simp [runProg, ihb hb.1, ihf hb.2]

/-- C8: after the cleanup sweep, a path's row in each partition is exactly
its pre-sweep row when the file still exists on disk, and is deleted when
the file no longer exists. -/
theorem cleanup_database_deletes_iff_missing (w : World) (db : DB) (p : String) :
    (cleanup_database w db).passed p = (if (w.fs p).isSome then db.passed p else none) ∧
    (cleanup_database w db).failed p = (if (w.fs p).isSome then db.failed p else none) := by
  constructor
  · rcases hp : db.passed p with _ | fr <;> simp [cleanup_database, hp]
  · rcases hp : db.failed p with _ | fr <;> simp [cleanup_database, hp]

/-- C4 counterexample: with forceRecheck true and a path that does not
exist on disk, `determine_action` returns FILE_NOT_FOUND, not RUN_FFMPEG,
refuting the claim for every path. -/
theorem force_recheck_missing_file_not_run :
    determine_action w0 dbEmpty "a.flac" true = (DAct.FILE_NOT_FOUND, 0) ∧
    (determine_action w0 dbEmpty "a.flac" true).1.isRun = false :=
  ⟨rfl, rfl⟩

/-- C4 (amended): for every path that exists on disk, forceRecheck true
makes `determine_action` return RUN_FFMPEG with the current fingerprint
and mtime, for every store state (the store is never consulted), after
one fingerprint computation. -/
theorem force_recheck_always_runs_on_existing (w : World) (db : DB) (fp : String)
    (st : FileStat) (hex : w.fs fp = some st) :
    determine_action w db fp true = (DAct.RUN_FFMPEG st.hash st.mtime, 1) := by
  simp [determine_action, hex]

/-- Witness for C4: a forced recheck of the unchanged, already-PASSED
"a.flac" (cached mtime and fingerprint both match) still returns
RUN_FFMPEG. -/
theorem force_recheck_always_runs_on_existing_witness :
    determine_action w1 dbP "a.flac" true = (DAct.RUN_FFMPEG "h" 2, 1) :=
  force_recheck_always_runs_on_existing w1 dbP "a.flac" st1 rfl

/-- C10: when the passed partition holds a row for the path, the decision
is computed from that row alone, and the failed partition's contents are
irrelevant to the result. -/
theorem passed_partition_consulted_first (w : World) (db : DB) (fp : String)
    (st : FileStat) (fr : FileRecord) (hex : w.fs fp = some st)
    (hp : db.passed fp = some fr) :
    determine_action w db fp false = decideFromRecord fr st ∧
    ∀ fl, determine_action w ⟨db.passed, fl⟩ fp false = determine_action w db fp false := by
  constructor
  · simp [determine_action, hex, hp]
  · intro fl
    simp [determine_action, hex, hp]

/-- Witness for C10: with "a.flac" recorded in both partitions, the
passed-partition row (matching mtime) wins: USE_CACHED with its outcome,
and replacing the failed partition does not change the decision. -/
theorem passed_partition_consulted_first_witness :
    determine_action w1 dbBoth "a.flac" false = (DAct.USE_CACHED "PASSED" 2, 0) ∧
    determine_action w1 ⟨dbBoth.passed, dbEmpty.failed⟩ "a.flac" false =
      determine_action w1 dbBoth "a.flac" false := by
  have h := passed_partition_consulted_first w1 dbBoth "a.flac" st1 rec1 rfl rfl
  exact ⟨h.1.trans rfl, h.2 dbEmpty.failed⟩

/-- C6: `check_single_file` always returns a classified result: stderr
output means FAILED with the stripped text as detail; a timeout means
FAILED with the fixed timed-out detail; any other exception means FAILED
with the exception text; otherwise PASSED with empty detail. The status
is always PASSED or FAILED. -/
theorem check_single_file_classifies_all_outcomes (w : World) (fp : String) :
    (w.ffmpeg fp = FfmpegRun.timedOut →
      check_single_file w fp = ("FAILED", "FFmpeg timed out", fp, "unknown")) ∧
    (∀ m, w.ffmpeg fp = FfmpegRun.exn m →
      check_single_file w fp = ("FAILED", m, fp, "unknown")) ∧
    (∀ e, w.ffmpeg fp = FfmpegRun.completed e → e ≠ "" →
      check_single_file w fp = ("FAILED", e.trim, fp, get_codec w fp)) ∧
    (w.ffmpeg fp = FfmpegRun.completed "" →
      check_single_file w fp = ("PASSED", "", fp, get_codec w fp)) ∧
    ((check_single_file w fp).1 = "PASSED" ∨ (check_single_file w fp).1 = "FAILED") := by
  refine ⟨?_, ?_, ?_, ?_, ?_⟩
  · intro h
    simp [check_single_file, h]
  · intro m h
    simp [check_single_file, h]
  · intro e h he
    simp [check_single_file, h, he]
  · intro h
    simp [check_single_file, h]
  · rcases ho : w.ffmpeg fp with e | _ | m
    · by_cases he : e = "" <;> simp [check_single_file, ho, he]
    · simp [check_single_file, ho]
    · simp [check_single_file, ho]

/-- Witness for C6: a timed-out verification is classified FAILED with the
fixed detail. -/
theorem check_single_file_classifies_all_outcomes_witness :
    check_single_file wT "x" = ("FAILED", "FFmpeg timed out", "x", "unknown") :=
  (check_single_file_classifies_all_outcomes wT "x").1 rfl

/-- C9: every locked operation (decision read, commit, cleanup sweep)
emits exactly an acquire followed by a release, for every lock-free body,
whether the body completes normally or raises; a raising body still
propagates its exception after the release. -/
theorem lock_balanced_on_all_exit_paths (b : Prog) (hb : noLock b = true) :
    (runProg (determine_action_locked b)).1 = [LockEv.acquire, LockEv.release] ∧
    (runProg (commit_locked b)).1 = [LockEv.acquire, LockEv.release] ∧
    (runProg (cleanup_locked b)).1 = [LockEv.acquire, LockEv.release] ∧
    (runProg (determine_action_locked Prog.raise)).2 = false := by
  have key : (runProg (lockedRegion b)).1 = [LockEv.acquire, LockEv.release] := by
    have hbe := noLock_no_events b hb
    simp [lockedRegion, runProg, hbe]
  exact ⟨key, key, key, rfl⟩

/-- Witness for C9: a body that raises immediately still produces the
acquire-release pair. -/
theorem lock_balanced_on_all_exit_paths_witness :
    (runProg (determine_action_locked Prog.raise)).1 = [LockEv.acquire, LockEv.release] :=
  (lock_balanced_on_all_exit_paths Prog.raise rfl).1

/-- C3 evaluation: for a path absent from disk, `determine_action` does
return FILE_NOT_FOUND and the store is untouched, but `process_file` maps
it to the 4-element ERROR tuple, whose 5-name unpacking in
`check_integrity` raises ValueError in both the verbose and the batched
path, aborting the run instead of skipping the file. -/
theorem missing_file_aborts_run :
    determine_action w0 dbEmpty "a.flac" false = (DAct.FILE_NOT_FOUND, 0) ∧
    process_file w0 dbEmpty "a.flac" false =
      (PRes.errorTuple "Unknown action" "a.flac", 0) ∧
    verboseStep w0 dbEmpty "a.flac" false "t1" =
      Except.error "ValueError: not enough values to unpack (expected 5, got 4)" ∧
    batched_round w0 dbEmpty "a.flac" "t1" =
      Except.error "ValueError: not enough values to unpack (expected 5, got 4)" :=
  ⟨rfl, rfl, rfl, rfl⟩

/-- C5 evaluation: a touched file (stale stored mtime 1, unchanged
fingerprint) yields UPDATE_MTIME with zero verifier invocations, but the
batch flush leaves the stored row completely unchanged - its mtime is
still the stale 1, not the current 2 - because the UPDATE binds the path
into the mtime slot and the mtime into the WHERE file_path slot. -/
theorem refresh_batch_commit_leaves_mtime_stale :
    process_file w1 db5 "a.flac" false =
      (PRes.updateMtime "PASSED" "Cached result (hash matches)" "a.flac" 2, 0) ∧
    flush_batch db5 "t1" [("a.flac", 2)] [] [] [] = Except.ok db5b ∧
    db5b.passed "a.flac" = some rec5 ∧
    rec5.mtime = SqlVal.r 1 ∧ SqlVal.r 1 ≠ SqlVal.r 2 :=
  ⟨rfl, rfl, rfl, rfl, by decide⟩

/-- C7 evaluation: in the batched (default) path, a first run over a
touched-but-unchanged file completes with UPDATE_MTIME but persists
nothing, so the second run still returns UPDATE_MTIME, not USE_CACHED;
and a first run that needs the verifier (fresh store) cannot even flush:
the commit raises ValueError. -/
theorem second_run_not_use_cached_after_touch :
    (determine_action w1 db5 "a.flac" false).1 = DAct.UPDATE_MTIME "PASSED" "h" 2 ∧
    batched_round w1 db5 "a.flac" "t1" = Except.ok db5b ∧
    (determine_action w1 db5b "a.flac" false).1 = DAct.UPDATE_MTIME "PASSED" "h" 2 ∧
    (determine_action w1 db5b "a.flac" false).1.isUseCached = false ∧
    batched_round w1 dbEmpty "a.flac" "t1" =
      Except.error "ValueError: too many values to unpack (expected 4)" :=
  ⟨rfl, rfl, rfl, rfl, rfl⟩

/-- C1: with forceRecheck false, for a file present on disk and a store
in which the path is in at most one partition, `determine_action` follows
the four-case invalidation policy exactly: no record means RUN_FFMPEG; a
record with matching stored mtime means USE_CACHED with the stored
outcome and zero fingerprint computations; a differing mtime with a
matching fingerprint means UPDATE_MTIME carrying the stored outcome, the
current fingerprint and the current mtime; and a differing fingerprint
means RUN_FFMPEG. -/
theorem determine_action_four_case_policy (w : World) (db : DB) (fp : String)
    (st : FileStat) (hex : w.fs fp = some st)
    (hxor : db.passed fp = none ∨ db.failed fp = none) :
    (recordOf db fp = none →
      determine_action w db fp false = (DAct.RUN_FFMPEG st.hash st.mtime, 1)) ∧
    (∀ fr, recordOf db fp = some fr → fr.mtime = SqlVal.r st.mtime →
      determine_action w db fp false = (DAct.USE_CACHED fr.status st.mtime, 0)) ∧
    (∀ fr, recordOf db fp = some fr → fr.mtime ≠ SqlVal.r st.mtime →
      fr.file_hash = st.hash →
      determine_action w db fp false = (DAct.UPDATE_MTIME fr.status st.hash st.mtime, 1)) ∧
    (∀ fr, recordOf db fp = some fr → fr.mtime ≠ SqlVal.r st.mtime →
      fr.file_hash ≠ st.hash →
      determine_action w db fp false = (DAct.RUN_FFMPEG st.hash st.mtime, 1)) := by
  refine ⟨?_, ?_, ?_, ?_⟩
  · intro hnone
    rcases hp : db.passed fp with _ | fr1
    · rcases hf : db.failed fp with _ | fr2
      · simp [determine_action, hex, hp, hf]
      · simp [recordOf, hp, hf] at hnone
    · simp [recordOf, hp] at hnone
  · intro fr hrec hm
    rcases hp : db.passed fp with _ | fr1
    · rcases hf : db.failed fp with _ | fr2
      · simp [recordOf, hp, hf] at hrec
      · simp only [recordOf, hp, hf, Option.some.injEq] at hrec
        subst hrec
        simp [determine_action, hex, hp, hf, decideFromRecord, hm]
    · simp only [recordOf, hp, Option.some.injEq] at hrec
      subst hrec
      simp [determine_action, hex, hp, decideFromRecord, hm]
  · intro fr hrec hm hh
    rcases hp : db.passed fp with _ | fr1
    · rcases hf : db.failed fp with _ | fr2
      · simp [recordOf, hp, hf] at hrec
      · simp only [recordOf, hp, hf, Option.some.injEq] at hrec
        subst hrec
        simp [determine_action, hex, hp, hf, decideFromRecord, hm, hh]
    · simp only [recordOf, hp, Option.some.injEq] at hrec
      subst hrec
      simp [determine_action, hex, hp, decideFromRecord, hm, hh]
  · intro fr hrec hm hh
    rcases hp : db.passed fp with _ | fr1
    · rcases hf : db.failed fp with _ | fr2
      · simp [recordOf, hp, hf] at hrec
      · simp only [recordOf, hp, hf, Option.some.injEq] at hrec
        subst hrec
        simp [determine_action, hex, hp, hf, decideFromRecord, hm, hh]
    · simp only [recordOf, hp, Option.some.injEq] at hrec
      subst hrec
      simp [determine_action, hex, hp, decideFromRecord, hm, hh]

/-- Witness for C1: "a.flac" cached as PASSED with matching mtime is
served from the cache with the stored outcome and no hashing. -/
theorem determine_action_four_case_policy_witness :
    determine_action w1 dbP "a.flac" false = (DAct.USE_CACHED "PASSED" 2, 0) :=
  (determine_action_four_case_policy w1 dbP "a.flac" st1 rfl (Or.inr rfl)).2.1
    rec1 rfl rfl

/-- C2: committing a result preserves the mutual-exclusivity invariant.
For the verbose per-file commit: if the store has each path in at most
one partition, so does the committed store; moreover a committed RUN
result lands in the partition of its new outcome with the opposite
partition's entry for that path deleted in the same transaction. The
batch flush, whenever it commits at all, also preserves the invariant. -/
theorem commit_preserves_partition_exclusivity (w : World) (db : DB) (fp now : String)
    (db' : DB) (n : Nat) (hx : exclusive db)
    (hok : verboseStep w db fp false now = Except.ok (db', n)) :
    exclusive db' ∧
    (∀ s msg p ui vn, process_file w db fp false = (PRes.runFfmpeg s msg p ui, vn) →
      (ui.status = "PASSED" → db'.failed ui.path = none ∧ (db'.passed ui.path).isSome = true) ∧
      (ui.status ≠ "PASSED" → db'.passed ui.path = none ∧ (db'.failed ui.path).isSome = true)) ∧
    (∀ mtP mtF upP upF db2, flush_batch db now mtP mtF upP upF = Except.ok db2 →
      exclusive db2) := by
  have hflush : ∀ mtP mtF upP upF db2,
      flush_batch db now mtP mtF upP upF = Except.ok db2 → exclusive db2 := by
    intro mtP mtF upP upF db2 hfb
    unfold flush_batch at hfb
    rcases hP : upP.isEmpty <;> rcases hF : upF.isEmpty <;> simp [hP, hF] at hfb
    subst hfb
    intro q
    rcases hx q with h | h
    · left
      show batchUpdMtime db.passed mtP q = none
      rw [batchUpdMtime_pointwise]
      exact h
    · right
      show batchUpdMtime db.failed mtF q = none
      rw [batchUpdMtime_pointwise]
      exact h
  unfold verboseStep at hok
  rcases hpf : process_file w db fp false with ⟨pr, vn0⟩
  rw [hpf] at hok
  cases pr with
  | errorTuple m p => exact absurd hok (by simp)
  | useCached s m p =>
    simp only [Except.ok.injEq, Prod.mk.injEq] at hok
    obtain ⟨h1, _⟩ := hok
    subst h1
    refine ⟨hx, ?_, hflush⟩
    intro s' msg p' ui vn hpf2
    exact absurd hpf2 (by simp)
  | updateMtime s m p mt =>
    by_cases hs : s = "PASSED"
    · simp only [if_pos hs, Except.ok.injEq, Prod.mk.injEq] at hok
      obtain ⟨h1, _⟩ := hok
      subst h1
      refine ⟨?_, ?_, ?_⟩
      · intro q
        rcases hx q with h | h
        · left
          show updMtime db.passed p mt q = none
          by_cases hq : q = p
          · subst hq
            simp [updMtime, h]
          · simp [updMtime, hq, h]
        · right
          exact h
      · intro s' msg p' ui vn hpf2
        exact absurd hpf2 (by simp)
      · exact hflush
    · simp only [if_neg hs, Except.ok.injEq, Prod.mk.injEq] at hok
      obtain ⟨h1, _⟩ := hok
      subst h1
      refine ⟨?_, ?_, ?_⟩
      · intro q
        rcases hx q with h | h
        · left
          exact h
        · right
          show updMtime db.failed p mt q = none
          by_cases hq : q = p
          · subst hq
            simp [updMtime, h]
          · simp [updMtime, hq, h]
      · intro s' msg p' ui vn hpf2
        exact absurd hpf2 (by simp)
      · exact hflush
  | runFfmpeg s m p ui =>
    by_cases hs : ui.status = "PASSED"
    · simp only [if_pos hs, Except.ok.injEq, Prod.mk.injEq] at hok
      obtain ⟨h1, _⟩ := hok
      subst h1
      refine ⟨?_, ?_, ?_⟩
      · intro q
        by_cases hq : q = ui.path
        · right
          simp [deleteRec, hq]
        · rcases hx q with h | h
          · left
            simpa [insertRec, hq] using h
          · right
            simpa [deleteRec, hq] using h
      · intro s' msg p' ui' vn hpf2
        simp only [Prod.mk.injEq, PRes.runFfmpeg.injEq] at hpf2
        obtain ⟨⟨_, _, _, hui⟩, _⟩ := hpf2
        subst hui
        constructor
        · intro _
          exact ⟨by simp [deleteRec], by simp [insertRec]⟩
        · intro hne
          exact absurd hs hne
      · exact hflush
    · simp only [if_neg hs, Except.ok.injEq, Prod.mk.injEq] at hok
      obtain ⟨h1, _⟩ := hok
      subst h1
      refine ⟨?_, ?_, ?_⟩
      · intro q
        by_cases hq : q = ui.path
        · left
          simp [deleteRec, hq]
        · rcases hx q with h | h
          · left
            simpa [deleteRec, hq] using h
          · right
            simpa [insertRec, hq] using h
      · intro s' msg p' ui' vn hpf2
        simp only [Prod.mk.injEq, PRes.runFfmpeg.injEq] at hpf2
        obtain ⟨⟨_, _, _, hui⟩, _⟩ := hpf2
        subst hui
        constructor
        · intro hp2
          exact absurd hp2 hs
        · intro _
          exact ⟨by simp [deleteRec], by simp [insertRec]⟩
      · exact hflush

/-- Witness for C2: an outcome flip on "a.flac" (stale FAILED row, file
now decodes cleanly) commits to the passed partition, deletes the failed
row in the same step, and the store stays exclusive. -/
theorem commit_preserves_partition_exclusivity_witness :
    exclusive dbw' ∧ dbw'.failed "a.flac" = none :=
  ⟨(commit_preserves_partition_exclusivity w1 dbw "a.flac" "t1" dbw' 1
      (fun _ => Or.inl rfl) rfl).1, rfl⟩
